import Mathlib

/-!
Verification of the snippet-processing core of `src/app/colorcodebot.py`.

The embedding below translates the pure decision logic of the bot into Lean:

* the consent gate at the top of `ColorCodeBot.intake_snippet` (which key-value
  lookups decide whether a message is processed at all);
* group-chat content extraction (`code_subcontent`);
* explicit-markup lookup (`ColorCodeBot.code_specified_syntax`, embedded here
  as `code_specified_ext` because of lexical naming constraints);
* the classifier/heuristic stage (`ColorCodeBot.guess_ext`), with the external
  classifier's top `(label, probability)` result passed in as data;
* the remaining resolution pipeline of `intake_snippet` (explicit markup, then
  classifier/heuristics, then the stored per-chat default syntax);
* the deletion-permission logic of `ColorCodeBot.begone` and
  `is_from_group_admin_or_creator`;
* the theme fan-out loop of `ColorCodeBot.set_snippet_filetype`, with the
  fallible render-and-deliver body abstracted as an `Except`-valued step.

Key-value stores (`ignore_mode_groups`, `group_user_current_watchme_requests`,
`group_syntaxes`) are embedded as functions into `Option`, matching `.get`
with and without defaults.  Probabilities are embedded as rationals.
-/

/-- One Telegram message entity, as read by the pipeline: its `type`
(`"code"`, `"pre"`, ...), its code-point offset and length into the message
text, and its optional `language` attribute. -/
structure MessageEntity where
  type : String
  offset : Nat
  length : Nat
  language : Option String
deriving DecidableEq

/-- The parts of a Telegram message that the snippet pipeline reads. -/
structure Msg where
  chatId : Int
  userId : Int
  chatType : String
  text : String
  entities : List MessageEntity
deriving DecidableEq

/-- Python truthiness of an optional string (`None` and `""` are falsy),
used for the `if not ext:` / `if lang:` checks in the source. -/
def truthy : Option String → Bool
  | none => false
  | some s => !(s == "")

/-- The composite key `f"{message.chat.id}:{message.from_user.id}"` used for
the `group_user_current_watchme_request` table. -/
def watchmeKey (chatId userId : Int) : String :=
  toString chatId ++ ":" ++ toString userId

/-- The consent gate at the start of `ColorCodeBot.intake_snippet`
(lines 508-522): returns `true` when the handler does NOT return early.
`img` embeds `self.ignore_mode_groups` and `wm` embeds
`self.group_user_current_watchme_requests`. -/
def intakeGate (img : Int → Option Bool) (wm : String → Option String)
    (chatId userId : Int) : Bool :=
  if (img chatId).getD false then
    ((wm (watchmeKey chatId userId)).getD "ignore") == "watch"
  else
    !(((wm (watchmeKey chatId userId)).getD "watch") == "ignore")

/-- Modelled from the spec: the consent table of spec §3 — chat mode Ignore:
process only on an explicit `Watch` override (absent means do not process);
chat mode Watch: process unless the override is `Ignore` (absent means
process).  Written from the spec's words, for comparison with `intakeGate`. -/
def specConsentTable (ignoreMode : Bool) (override : Option String) : Bool :=
  match ignoreMode, override with
  | true, some s => s == "watch"
  | true, none => false
  | false, some s => !(s == "ignore")
  | false, none => true

/-- Python code-point slice `s[off : off + len]`. -/
def pySlice (s : String) (off len : Nat) : String :=
  String.mk ((s.data.drop off).take len)

/-- Python `str.isspace()` for one character: the Unicode whitespace set
`str.split()` splits on — tab through CR (including VT and FF), the
file/group/record/unit separators, space, NEL, NBSP, Ogham space mark, the
fixed-width spaces U+2000..U+200A, line and paragraph separators, narrow
NBSP, medium mathematical space, and ideographic space. -/
def pyIsSpace (c : Char) : Bool :=
  let n := c.toNat
  (9 ≤ n && n ≤ 13) || (28 ≤ n && n ≤ 31) || n == 32 || n == 0x85
    || n == 0xa0 || n == 0x1680 || (0x2000 ≤ n && n ≤ 0x200a)
    || n == 0x2028 || n == 0x2029 || n == 0x202f || n == 0x205f
    || n == 0x3000

/-- Helper for `pyWords`: Python `str.split()` with no argument, splitting on
runs of `pyIsSpace` whitespace and discarding empty chunks.  `cur` is the
reversed current word accumulator. -/
def wordsAux : List Char → List Char → List (List Char)
  | cur, [] => if cur.isEmpty then [] else [cur.reverse]
  | cur, c :: cs =>
    if pyIsSpace c then
      if cur.isEmpty then wordsAux [] cs
      else cur.reverse :: wordsAux [] cs
    else wordsAux (c :: cur) cs

/-- Python `s.split()` (no separator argument), over Python's Unicode
whitespace set. -/
def pyWords (s : String) : List String :=
  (wordsAux [] s.data).map String.mk

/-- The `'\n\n'.join(...)` of the code/pre entity spans of a message, as
built inside `code_subcontent` (lines 272-274). -/
def joinedCodeContent (msg : Msg) : String :=
  String.intercalate "\n\n"
    ((msg.entities.filter fun e => e.type == "code" || e.type == "pre").map
      fun e => pySlice msg.text e.offset e.length)

/-- `code_subcontent` (lines 268-276): join the spans of all `code`/`pre`
entities; return the content only when it splits into more than one
whitespace-separated word. -/
def code_subcontent (msg : Msg) : Option String :=
  if (msg.entities.filter fun e => e.type == "code" || e.type == "pre").isEmpty
  then none
  else if (pyWords (joinedCodeContent msg)).length > 1
  then some (joinedCodeContent msg)
  else none

/-- `ColorCodeBot.code_specified_syntax` (lines 466-472): the language tag of
the FIRST `pre` entity, when truthy, looked up in the silicon (explicit
markup) table `si`. -/
def code_specified_ext (si : String → Option String) (msg : Msg) :
    Option String :=
  match msg.entities.filter fun e => e.type == "pre" with
  | [] => none
  | e :: _ =>
    match e.language with
    | none => none
    | some lang => if lang == "" then none else si lang

/-- The ordered literal-start table inside `ColorCodeBot.guess_ext`
(lines 486-501), in source declaration order. -/
def simpleGuessTable : List (String × String) :=
  [("\x7b", "json"),
   ("---\n", "yaml"),
   ("--- ", "diff"),
   ("-- ", "lua"),
   ("\\", "tex"),
   ("%%", "tex"),
   ("[[", "toml"), ("[", "ini"),
   ("<?php", "php"), ("<", "xml"),
   ("! ", "factor"),
   (": ", "factor"),
   ("USING: ", "factor"),
   ("IN: ", "factor")]

/-- Python `code.startswith(p)` over code points. -/
def pyStartsWith (s p : String) : Bool :=
  p.data.isPrefixOf s.data

/-- The heuristic stage of `guess_ext`: the first table entry whose literal
start matches wins (lines 501-504). -/
def simpleGuess (code : String) : Option String :=
  (simpleGuessTable.find? fun pe => pyStartsWith code pe.1).map Prod.snd

/-- `ColorCodeBot.guess_ext` (lines 474-504).  `gm` embeds
`self.guesslang_syntaxes`; `top` is the classifier's top
`(label, probability)` pair; `pmin` is `probability_min`.  Note the source
returns the (possibly `None`) table lookup whenever the probability clears
the threshold, and only otherwise runs the literal-start loop. -/
def guess_ext (gm : String → Option String) (top : String × ℚ) (pmin : ℚ)
    (code : String) : Option String :=
  let ext := gm top.1
  if top.2 ≥ pmin then ext else simpleGuess code

/-- Outcome of one `intake_snippet` invocation: either the handler returned
early (`skipped`: no resolution, no reply), or it replied, with the final
resolved `ext` (possibly falsy, meaning the bare syntax keyboard was shown)
and whether `guess_ext` (the classifier stage) was invoked. -/
inductive IntakeOutcome where
  | skipped : IntakeOutcome
  | reply : Option String → Bool → IntakeOutcome
deriving DecidableEq

/-- The resolution tail of `intake_snippet` (lines 528-559), given the
already-extracted `content`: explicit markup first; if falsy, `guess_ext`
on the content (classifier top result `cl content`, threshold `0.12`); if
still falsy, the stored per-chat default syntax `gs` (the
`suppress(KeyError)` lookup keeps the previous value when the key is
absent). -/
def intakeResolve (gs : Int → Option String) (si : String → Option String)
    (gm : String → Option String) (cl : String → String × ℚ)
    (content : String) (msg : Msg) : IntakeOutcome :=
  let ext0 := code_specified_ext si msg
  if truthy ext0 then
    .reply ext0 false
  else
    let ext1 := guess_ext gm (cl content) (12 / 100 : ℚ) content
    let ext2 :=
      if truthy ext1 then ext1
      else
        match gs msg.chatId with
        | some e => some e
        | none => ext1
    .reply ext2 true

/-- `ColorCodeBot.intake_snippet` (lines 506-560), up to the reply: the
consent gate, then — for non-private chats only — content extraction via
`code_subcontent` with early return when it yields nothing, then the
resolution tail. -/
def intake (img : Int → Option Bool) (wm : String → Option String)
    (gs : Int → Option String) (si : String → Option String)
    (gm : String → Option String) (cl : String → String × ℚ)
    (msg : Msg) : IntakeOutcome :=
  if intakeGate img wm msg.chatId msg.userId then
    if msg.chatType == "private" then
      intakeResolve gs si gm cl msg.text msg
    else
      match code_subcontent msg with
      | none => .skipped
      | some content => intakeResolve gs si gm cl content msg
  else .skipped

/-- The parts of a callback query that `ColorCodeBot.begone` reads:
the chat type, the tapping user, the author of the message reached through
`cb_query.message.reply_to_message` (`none` when that chain is absent, which
raises `AttributeError` in the source), and the tapping user's chat-member
status as reported by the gateway. -/
structure CbQuery where
  chatType : String
  fromUserId : Int
  replyToFromUserId : Option Int
  memberStatus : String
deriving DecidableEq

/-- `is_from_group_admin_or_creator` (lines 56-66) for a callback query:
true in private chats, otherwise true iff the member status is
`administrator` or `creator`. -/
def is_from_group_admin_or_creator (chatType status : String) : Bool :=
  chatType == "private" || status == "administrator" || status == "creator"

/-- The permission decision of `ColorCodeBot.begone` (lines 448-464): when
the reply chain is present, permission is exactly authorship of the replied
message (the `except AttributeError` fallback never fires); when it is
absent, the admin/creator check decides. -/
def begone_allows (q : CbQuery) : Bool :=
  match q.replyToFromUserId with
  | some author => author == q.fromUserId
  | none => is_from_group_admin_or_creator q.chatType q.memberStatus

/-- The theme list built in `ColorCodeBot.set_snippet_filetype`
(lines 641-651): dark always; light only for private chats. -/
def themesFor (chatType : String) : List String :=
  let do_send_image_dark := true
  let do_send_image_light := if chatType != "private" then false else true
  (if do_send_image_dark then ["Coldark-Dark"] else []) ++
    (if do_send_image_light then ["Coldark-Cold"] else [])

/-- The per-theme loop of `set_snippet_filetype` (lines 652-674).  `step`
is the fallible render-and-deliver body for one theme (`mk_png`,
`send_image`, keyboard edit); an exception aborts the loop, as in the
source, which has no per-theme handler.  Returns the list of themes
actually attempted and the propagated error, if any. -/
def renderLoop (step : String → Except String String) :
    List String → List String × Option String
  | [] => ([], none)
  | t :: rest =>
    match step t with
    | .error e => ([t], some e)
    | .ok _ =>
      let r := renderLoop step rest
      (t :: r.1, r.2)

/-! ### Helper lemmas -/

/-- Below the threshold, `guess_ext` is exactly the literal-start heuristic. -/
theorem guess_ext_below (gm : String → Option String) (top : String × ℚ)
    (pmin : ℚ) (code : String) (h : top.2 < pmin) :
    guess_ext gm top pmin code = simpleGuess code := by
  simp [guess_ext, not_le.mpr h]

/-- At or above the threshold, `guess_ext` is the raw table lookup of the
classifier label, even when that lookup yields nothing. -/
theorem guess_ext_atLeast (gm : String → Option String) (top : String × ℚ)
    (pmin : ℚ) (code : String) (h : top.2 ≥ pmin) :
    guess_ext gm top pmin code = gm top.1 := by
  simp [guess_ext, h]

/-- A contentful single word produces at most one `split()` chunk. -/
theorem wordsAux_len_le_one (l cur : List Char)
    (h : ∀ c ∈ l, pyIsSpace c = false) :
    (wordsAux cur l).length ≤ 1 := by
  induction l generalizing cur with
  | nil =>
    by_cases hc : cur.isEmpty <;> simp [wordsAux, hc]
  | cons c cs ih =>
    have hc : pyIsSpace c = false := h c (List.mem_cons_self c cs)
    have hrest : ∀ x ∈ cs, pyIsSpace x = false := fun x hx =>
      h x (List.mem_cons_of_mem c hx)
    simp [wordsAux, hc]
    exact ih (c :: cur) hrest

/-! ### Claim theorems -/

/-- C1: the decision to process a snippet is a pure function of the chat's
ignore-mode flag and the per-(chat,user) override, and agrees with the
spec's 2x3 consent table (`specConsentTable`) at every one of its states;
whenever that table says "do not process", `intake_snippet` returns before
resolution. -/
theorem c1_consent_gate_matches_table :
    (∀ (img : Int → Option Bool) (wm : String → Option String) (c u : Int),
        intakeGate img wm c u
          = specConsentTable ((img c).getD false) (wm (watchmeKey c u)))
    ∧ (∀ (img : Int → Option Bool) (wm : String → Option String)
        (gs : Int → Option String) (si gm : String → Option String)
        (cl : String → String × ℚ) (msg : Msg),
        specConsentTable ((img msg.chatId).getD false)
            (wm (watchmeKey msg.chatId msg.userId)) = false →
        intake img wm gs si gm cl msg = .skipped) := by
  have key : ∀ (img : Int → Option Bool) (wm : String → Option String)
      (c u : Int),
      intakeGate img wm c u
        = specConsentTable ((img c).getD false) (wm (watchmeKey c u)) := by
    intro img wm c u
    unfold intakeGate specConsentTable
    cases h : (img c).getD false <;>
      cases ho : wm (watchmeKey c u) <;> simp [h, ho]
  refine ⟨key, ?_⟩
  intro img wm gs si gm cl msg h
  unfold intake
  rw [key, h]
  simp

/-- Witness for C1: in a chat whose ignore-mode flag is stored `true` and
with no override, the spec table denies processing and `intake` skips. -/
theorem c1_consent_gate_matches_table_inst :
    intake (fun _ => some true) (fun _ => none) (fun _ => none) (fun _ => none)
      (fun _ => none) (fun _ => ("python", 0))
      ⟨-100, 5, "supergroup", "x y", []⟩ = .skipped :=
  c1_consent_gate_matches_table.2 _ _ _ _ _ _ _ rfl

/-- C5: on `"<?php echo 1;"` with a below-threshold classifier result, the
heuristic stage answers `"php"`, not `"xml"`, although the text also starts
with the later-declared literal `"<"` — earlier table entries win. -/
theorem c5_php_wins_over_xml :
    ∀ (gm : String → Option String) (l : String),
      guess_ext gm (l, 1 / 20) (12 / 100) "<?php echo 1;" = some "php"
      ∧ simpleGuess "<?php echo 1;" = some "php"
      ∧ pyStartsWith "<?php echo 1;" "<" = true
      ∧ simpleGuess "<?php echo 1;" ≠ some "xml" := by
  intro gm l
  have h : guess_ext gm (l, 1 / 20) (12 / 100) "<?php echo 1;"
      = simpleGuess "<?php echo 1;" :=
    guess_ext_below _ _ _ _ (by norm_num)
  refine ⟨?_, by decide, by decide, by decide⟩
  rw [h]
  decide

/-- Counterexample to C6: a private chat whose id carries a stored
ignore-mode flag (settable from a private chat via the settings panel) is
NOT processed — the consent gate does not special-case private chats. -/
theorem c6_private_chat_gated_cex :
    (Msg.chatType ⟨7, 3, "private", "x = 1", []⟩ = "private")
    ∧ intake (fun _ => some true) (fun _ => none) (fun _ => none)
        (fun _ => none) (fun _ => none) (fun _ => ("python", 0))
        ⟨7, 3, "private", "x = 1", []⟩ = .skipped := by
  exact ⟨rfl, by decide⟩

/-- C6 (amended): private chats pass through the same consent gate as group
chats; a private-chat text message is processed exactly when the stored
ignore-mode flag and override allow it — in particular, with no stored
ignore-mode and no `"ignore"` override it always reaches resolution. -/
theorem c6_private_follows_stored_state :
    ∀ (img : Int → Option Bool) (wm : String → Option String)
      (gs : Int → Option String) (si gm : String → Option String)
      (cl : String → String × ℚ) (msg : Msg),
      msg.chatType = "private" →
      (intakeGate img wm msg.chatId msg.userId = false →
          intake img wm gs si gm cl msg = .skipped)
      ∧ ((img msg.chatId).getD false = false →
          wm (watchmeKey msg.chatId msg.userId) ≠ some "ignore" →
          intake img wm gs si gm cl msg
            = intakeResolve gs si gm cl msg.text msg) := by
  intro img wm gs si gm cl msg hpriv
  constructor
  · intro hg
    unfold intake
    rw [hg]
    simp
  · intro hm ho
    have hgate : intakeGate img wm msg.chatId msg.userId = true := by
      unfold intakeGate
      rw [hm]
      cases hwm : wm (watchmeKey msg.chatId msg.userId) with
      | none => simp
      | some s =>
        have hs : ¬s = "ignore" := by
          intro hs
          exact ho (by rw [hwm, hs])
        simp [hs]
    unfold intake
    rw [hgate, hpriv]
    simp

/-- Witness for C6 (amended): with empty stores, a private-chat message
reaches the resolution tail. -/
theorem c6_private_follows_stored_state_inst :
    intake (fun _ => none) (fun _ => none) (fun _ => none) (fun _ => none)
        (fun _ => none) (fun _ => ("python", 0)) ⟨7, 3, "private", "x y", []⟩
      = intakeResolve (fun _ => none) (fun _ => none) (fun _ => none)
          (fun _ => ("python", 0)) "x y" ⟨7, 3, "private", "x y", []⟩ :=
  (c6_private_follows_stored_state _ _ _ _ _ _ _ rfl).2 rfl (by simp)

/-- When the explicit-markup lookup is truthy, the resolution tail replies
with it and never invokes the classifier. -/
theorem intakeResolve_of_specified (gs : Int → Option String)
    (si gm : String → Option String) (cl : String → String × ℚ)
    (content : String) (msg : Msg)
    (h : truthy (code_specified_ext si msg) = true) :
    intakeResolve gs si gm cl content msg
      = .reply (code_specified_ext si msg) false := by
  unfold intakeResolve
  simp [h]

/-- When the explicit-markup lookup is falsy, the resolution tail invokes the
classifier stage and falls back to the stored chat default. -/
theorem intakeResolve_of_guess (gs : Int → Option String)
    (si gm : String → Option String) (cl : String → String × ℚ)
    (content : String) (msg : Msg)
    (h : truthy (code_specified_ext si msg) = false) :
    intakeResolve gs si gm cl content msg
      = .reply
          (if truthy (guess_ext gm (cl content) (12 / 100) content)
           then guess_ext gm (cl content) (12 / 100) content
           else
             match gs msg.chatId with
             | some e => some e
             | none => guess_ext gm (cl content) (12 / 100) content)
          true := by
  unfold intakeResolve
  simp [h]

/-- Counterexample to C2: a message that does carry a `pre` entity whose
language tag maps to a known SyntaxId (`"python3"` mapping to `"py"`), but
on a later entity — the source reads only the FIRST `pre` entity, finds no
language there, and invokes the classifier, resolving to nothing. -/
theorem c2_later_pre_entity_ignored_cex :
    (∃ ent ∈ Msg.entities ⟨1, 2, "private", "print(1)\n\nx = 2",
          [⟨"pre", 0, 8, none⟩, ⟨"pre", 10, 5, some "python3"⟩]⟩,
        ent.type = "pre"
        ∧ ∃ l, ent.language = some l
            ∧ (fun s => if s == "python3" then some "py" else none) l
                = some "py")
    ∧ intakeResolve (fun _ => none)
        (fun s => if s == "python3" then some "py" else none) (fun _ => none)
        (fun _ => ("unknownlang", 0)) "print(1)\n\nx = 2"
        ⟨1, 2, "private", "print(1)\n\nx = 2",
          [⟨"pre", 0, 8, none⟩, ⟨"pre", 10, 5, some "python3"⟩]⟩
      = .reply none true := by
  constructor
  · exact ⟨⟨"pre", 10, 5, some "python3"⟩, by decide, rfl, "python3", rfl,
      by decide⟩
  · have hspec : truthy (code_specified_ext
        (fun s => if s == "python3" then some "py" else none)
        ⟨1, 2, "private", "print(1)\n\nx = 2",
          [⟨"pre", 0, 8, none⟩, ⟨"pre", 10, 5, some "python3"⟩]⟩) = false := by
      decide
    rw [intakeResolve_of_guess _ _ _ _ _ _ hspec]
    rw [guess_ext_below _ _ _ _ (by norm_num)]
    decide

/-- C2 (amended): resolution returns the mapped SyntaxId without invoking the
classifier exactly for the language tag of the FIRST `pre` entity: when that
first entity carries a truthy tag that the explicit-markup table maps to a
truthy SyntaxId, the resolution tail replies with it and the classifier is
never invoked. -/
theorem c2_first_pre_explicit_markup :
    ∀ (gs : Int → Option String) (si gm : String → Option String)
      (cl : String → String × ℚ) (content : String) (msg : Msg)
      (ent : MessageEntity) (rest : List MessageEntity) (l e : String),
      (msg.entities.filter fun x => x.type == "pre") = ent :: rest →
      ent.language = some l → l ≠ "" → si l = some e → e ≠ "" →
      intakeResolve gs si gm cl content msg = .reply (some e) false := by
  intro gs si gm cl content msg ent rest l e hfilter hlang hl hsi he
  have hspec : code_specified_ext si msg = some e := by
    unfold code_specified_ext
    rw [hfilter]
    dsimp only
    rw [hlang]
    simp [hl, hsi]
  have ht : truthy (code_specified_ext si msg) = true := by
    rw [hspec]
    simp [truthy, he]
  rw [intakeResolve_of_specified _ _ _ _ _ _ ht, hspec]

/-- Witness for C2 (amended): a single `pre` entity tagged `"python3"`,
mapped to `"py"`, resolves to `"py"` with the classifier unused. -/
theorem c2_first_pre_explicit_markup_inst :
    intakeResolve (fun _ => none)
        (fun s => if s == "python3" then some "py" else none) (fun _ => none)
        (fun _ => ("x", 0)) "print(1) ;"
        ⟨1, 2, "private", "print(1) ;", [⟨"pre", 0, 8, some "python3"⟩]⟩
      = .reply (some "py") false :=
  c2_first_pre_explicit_markup _ _ _ _ _ _ ⟨"pre", 0, 8, some "python3"⟩ []
    "python3" "py" (by decide) rfl (by decide) (by decide) (by decide)

/-- C3: with no accepted explicit markup, an at-or-above-threshold classifier
result whose label is in the mapping table resolves to the mapped SyntaxId;
a below-threshold result is discarded — the stage's answer equals the
heuristic stage's answer and is independent of the classifier label — and
when the heuristic also fails, the stored chat default decides. -/
theorem c3_classifier_threshold_rule :
    ∀ (gs : Int → Option String) (si gm : String → Option String)
      (l content : String) (p : ℚ) (e : String) (msg : Msg),
      (p ≥ 12 / 100 → gm l = some e → e ≠ "" →
        truthy (code_specified_ext si msg) = false →
        intakeResolve gs si gm (fun _ => (l, p)) content msg
          = .reply (some e) true)
      ∧ (p < 12 / 100 →
          guess_ext gm (l, p) (12 / 100) content = simpleGuess content
          ∧ ∀ l₂ : String,
              guess_ext gm (l₂, p) (12 / 100) content
                = guess_ext gm (l, p) (12 / 100) content)
      ∧ (p < 12 / 100 → truthy (code_specified_ext si msg) = false →
          simpleGuess content = none → gs msg.chatId = some e →
          intakeResolve gs si gm (fun _ => (l, p)) content msg
            = .reply (some e) true) := by
  intro gs si gm l content p e msg
  refine ⟨?_, ?_, ?_⟩
  · intro hp hm he hspec
    rw [intakeResolve_of_guess _ _ _ _ _ _ hspec]
    rw [guess_ext_atLeast _ _ _ _ hp]
    show IntakeOutcome.reply (if truthy (gm l) then gm l else _) true = _
    rw [hm]
    simp [truthy, he]
  · intro hp
    exact ⟨guess_ext_below _ _ _ _ hp,
      fun l₂ => by rw [guess_ext_below _ _ _ _ hp, guess_ext_below _ _ _ _ hp]⟩
  · intro hp hspec hsg hgs
    rw [intakeResolve_of_guess _ _ _ _ _ _ hspec]
    rw [guess_ext_below _ _ _ _ hp, hsg]
    simp [truthy, hgs]

/-- Witness for C3: classifier result `("python", 1/2)` mapped to `"py"`
resolves to `"py"` through the classifier stage. -/
theorem c3_classifier_threshold_rule_inst :
    intakeResolve (fun _ => none) (fun _ => none)
        (fun s => if s == "python" then some "py" else none)
        (fun _ => ("python", 1 / 2)) "x y" ⟨1, 2, "private", "x y", []⟩
      = .reply (some "py") true :=
  (c3_classifier_threshold_rule _ _ _ _ _ _ _ _).1 (by norm_num) (by decide)
    (by decide) (by decide)

/-- Counterexample to C4: a confident classifier result (`99/100`) whose
label is unmapped makes `guess_ext` return nothing WITHOUT running the
heuristic stage, although the text starts with the declared literal for
json — the claim's "label not in the mapping table" case does not proceed
to the heuristic stage. -/
theorem c4_confident_unmapped_skips_heuristics_cex :
    guess_ext (fun _ => none) ("vba", 99 / 100) (12 / 100) "\x7b \"a\": 1\x7d"
        = none
    ∧ simpleGuess "\x7b \"a\": 1\x7d" = some "json"
    ∧ pyStartsWith "\x7b \"a\": 1\x7d" "\x7b" = true := by
  refine ⟨?_, by decide, by decide⟩
  rw [guess_ext_atLeast _ _ _ _ (by norm_num)]

/-- C4 (amended): the heuristic literal-start stage runs exactly when the
classifier's confidence is below the threshold: at or above it, the raw
label lookup is returned even when the label is unmapped (no heuristic
attempt); below it, the result is the heuristic stage's first matching
declared literal start, regardless of the classifier outcome. -/
theorem c4_heuristic_iff_below_threshold :
    ∀ (gm : String → Option String) (l : String) (p pmin : ℚ) (code : String),
      (p < pmin → guess_ext gm (l, p) pmin code = simpleGuess code)
      ∧ (p ≥ pmin → guess_ext gm (l, p) pmin code = gm l) :=
  fun gm l p pmin code =>
    ⟨fun h => guess_ext_below gm (l, p) pmin code h,
     fun h => guess_ext_atLeast gm (l, p) pmin code h⟩

/-- Witness for C4 (amended): below threshold the heuristic decides; at
`1/2` the (mapped) label lookup is returned directly. -/
theorem c4_heuristic_iff_below_threshold_inst :
    guess_ext (fun _ => some "vb") ("vba", 1 / 100) (12 / 100) "--- x"
        = simpleGuess "--- x"
    ∧ guess_ext (fun _ => some "vb") ("vba", 1 / 2) (12 / 100) "--- x"
        = some "vb" :=
  ⟨(c4_heuristic_iff_below_threshold _ _ _ _ _).1 (by norm_num),
   (c4_heuristic_iff_below_threshold _ _ _ _ _).2 (by norm_num)⟩

/-- C7: for group-chat messages, extraction reads only the code/pre entity
spans (it is a function of the message text and those entities alone); when
no such entity exists, or the extracted content is a single whitespace-free
word, `intake_snippet` returns before resolution — no resolution, no
reply. -/
theorem c7_group_content_gate :
    (∀ (img : Int → Option Bool) (wm : String → Option String)
        (gs : Int → Option String) (si gm : String → Option String)
        (cl : String → String × ℚ) (msg : Msg),
        msg.chatType ≠ "private" →
        ((msg.entities.filter fun e => e.type == "code" || e.type == "pre")
              = [] →
            intake img wm gs si gm cl msg = .skipped)
        ∧ ((∀ c ∈ (joinedCodeContent msg).data, pyIsSpace c = false) →
            intake img wm gs si gm cl msg = .skipped))
    ∧ (∀ msg₁ msg₂ : Msg, msg₁.text = msg₂.text →
        msg₁.entities.filter (fun e => e.type == "code" || e.type == "pre")
          = msg₂.entities.filter (fun e => e.type == "code" || e.type == "pre") →
        code_subcontent msg₁ = code_subcontent msg₂) := by
  have skip : ∀ (img : Int → Option Bool) (wm : String → Option String)
      (gs : Int → Option String) (si gm : String → Option String)
      (cl : String → String × ℚ) (msg : Msg),
      msg.chatType ≠ "private" → code_subcontent msg = none →
      intake img wm gs si gm cl msg = .skipped := by
    intro img wm gs si gm cl msg hpriv hsub
    have hb : (msg.chatType == "private") = false := by
      simp [hpriv]
    cases hg : intakeGate img wm msg.chatId msg.userId <;>
      simp [intake, hg, hb, hsub]
  constructor
  · intro img wm gs si gm cl msg hpriv
    constructor
    · intro hfilter
      exact skip _ _ _ _ _ _ _ hpriv (by simp [code_subcontent, hfilter])
    · intro hws
      have hlen : (pyWords (joinedCodeContent msg)).length ≤ 1 := by
        have h1 := wordsAux_len_le_one (joinedCodeContent msg).data [] hws
        simpa [pyWords] using h1
      have hsub : code_subcontent msg = none := by
        unfold code_subcontent
        cases hfe : (msg.entities.filter
            fun e => e.type == "code" || e.type == "pre").isEmpty
        · rw [if_neg (by simp [hfe]), if_neg (by omega)]
        · rw [if_pos rfl]
      exact skip _ _ _ _ _ _ _ hpriv hsub
  · intro msg₁ msg₂ htext hents
    unfold code_subcontent joinedCodeContent
    rw [htext, hents]

/-- Witness for C7: a group message whose only code span is the single word
`hello` is skipped; so is one with no code/pre entity at all. -/
theorem c7_group_content_gate_inst :
    intake (fun _ => none) (fun _ => none) (fun _ => none) (fun _ => none)
        (fun _ => none) (fun _ => ("python", 0))
        ⟨9, 4, "supergroup", "hello", [⟨"code", 0, 5, none⟩]⟩ = .skipped
    ∧ intake (fun _ => none) (fun _ => none) (fun _ => none) (fun _ => none)
        (fun _ => none) (fun _ => ("python", 0))
        ⟨9, 4, "supergroup", "x = 1", []⟩ = .skipped :=
  ⟨(c7_group_content_gate.1 _ _ _ _ _ _ _ (by decide)).2 (by decide),
   (c7_group_content_gate.1 _ _ _ _ _ _ _ (by decide)).1 (by decide)⟩

/-- Counterexample to C8: with the dark theme's render-and-deliver step
failing, the private-chat fan-out attempts only the dark theme — the light
theme, although planned, is never attempted, so one theme's failure DOES
prevent the other theme's attempt. -/
theorem c8_dark_failure_blocks_light_cex :
    renderLoop
        (fun t => if t == "Coldark-Dark" then .error "render failed"
          else .ok "png")
        (themesFor "private")
      = (["Coldark-Dark"], some "render failed")
    ∧ "Coldark-Cold" ∈ themesFor "private" := by
  decide

/-- C8 (amended): per-artifact failures are not isolated: the theme loop of
`set_snippet_filetype` has no per-theme handler, so a failing step makes
its theme the last one attempted and propagates the error; all remaining
themes go unattempted. -/
theorem c8_failure_aborts_remaining :
    ∀ (step : String → Except String String) (t : String)
      (rest : List String) (e : String),
      step t = .error e →
      renderLoop step (t :: rest) = ([t], some e) := by
  intro step t rest e h
  simp [renderLoop, h]

/-- Witness for C8 (amended): a failing dark-theme step aborts the
private-chat fan-out before the light theme. -/
theorem c8_failure_aborts_remaining_inst :
    renderLoop (fun _ => .error "boom") (themesFor "private")
      = (["Coldark-Dark"], some "boom") :=
  c8_failure_aborts_remaining _ _ _ _ rfl

/-- Counterexample to C9: the reply chain is present with author `1`; the
requester `2` holds administrator status, so the claim's "or passes the
moderation check" arm says the deletion proceeds — but `begone` refuses,
because the moderation fallback is only reached when the reply chain is
absent. -/
theorem c9_admin_blocked_when_reply_present_cex :
    begone_allows ⟨"supergroup", 2, some 1, "administrator"⟩ = false
    ∧ is_from_group_admin_or_creator "supergroup" "administrator" = true
    ∧ CbQuery.replyToFromUserId ⟨"supergroup", 2, some 1, "administrator"⟩
        = some 1 := by
  decide

/-- C9 (amended): deletion is performed iff either the reply chain is
present and the requester authored the replied-to message, or the reply
chain is absent and the requester passes the moderation check (private
chat, or group administrator/creator); an absent reply chain falls back to
the moderation check rather than erroring. -/
theorem c9_deletion_decision_rule :
    ∀ q : CbQuery,
      (begone_allows q = true ↔
        ((∃ a, q.replyToFromUserId = some a ∧ a = q.fromUserId)
          ∨ (q.replyToFromUserId = none
              ∧ is_from_group_admin_or_creator q.chatType q.memberStatus
                  = true)))
      ∧ (q.replyToFromUserId = none →
          begone_allows q
            = is_from_group_admin_or_creator q.chatType q.memberStatus) := by
  intro q
  constructor
  · unfold begone_allows
    cases hr : q.replyToFromUserId with
    | none => simp
    | some a => simp
  · intro h
    unfold begone_allows
    rw [h]

/-- Witness for C9 (amended): with no reply chain, the decision equals the
moderation check. -/
theorem c9_deletion_decision_rule_inst :
    begone_allows ⟨"supergroup", 5, none, "member"⟩
      = is_from_group_admin_or_creator "supergroup" "member" :=
  (c9_deletion_decision_rule _).2 rfl

/-- C10: when every per-theme step succeeds, the fan-out performs exactly
the computed theme list with no error: the dark theme alone for any
non-private chat, dark then light for a private chat. -/
theorem c10_theme_fanout_counts :
    ∀ (ct : String) (step : String → Except String String),
      (∀ t, ∃ a, step t = .ok a) →
      renderLoop step (themesFor ct) = (themesFor ct, none)
      ∧ (ct = "private" → themesFor ct = ["Coldark-Dark", "Coldark-Cold"])
      ∧ (ct ≠ "private" → themesFor ct = ["Coldark-Dark"]) := by
  intro ct step hok
  refine ⟨?_, ?_, ?_⟩
  · have hall : ∀ ts : List String, renderLoop step ts = (ts, none) := by
      intro ts
      induction ts with
      | nil => rfl
      | cons t rest ih =>
        obtain ⟨a, ha⟩ := hok t
        simp [renderLoop, ha, ih]
    exact hall _
  · intro h
    rw [h]
    decide
  · intro h
    have hb : (ct != "private") = true := by
      simp [h]
    simp [themesFor, hb]

/-- Witness for C10: with an always-succeeding step, a group chat gets one
artifact and a private chat two. -/
theorem c10_theme_fanout_counts_inst :
    renderLoop (fun _ => .ok "png") (themesFor "supergroup")
      = (themesFor "supergroup", none)
    ∧ themesFor "supergroup" = ["Coldark-Dark"]
    ∧ renderLoop (fun _ => .ok "png") (themesFor "private")
      = (themesFor "private", none)
    ∧ themesFor "private" = ["Coldark-Dark", "Coldark-Cold"] :=
  ⟨(c10_theme_fanout_counts "supergroup" _ (fun _ => ⟨"png", rfl⟩)).1,
   (c10_theme_fanout_counts "supergroup" _ (fun _ => ⟨"png", rfl⟩)).2.2
     (by decide),
   (c10_theme_fanout_counts "private" _ (fun _ => ⟨"png", rfl⟩)).1,
   (c10_theme_fanout_counts "private" _ (fun _ => ⟨"png", rfl⟩)).2.1 rfl⟩
